import Mathlib

/-!
Verification of the Mitsuba3-Rendering-Examples GUI rendering pipeline.

Shallow embedding of the Python modules
  src/gui/utils/render_subprocess.py   (child render process)
  src/gui/utils/subprocess_renderer.py (parent-side subprocess dispatcher)
  src/gui/utils/renderer.py            (in-process threaded renderer)
  src/gui_examples/basic_scene.py      (pure scene-dictionary generator)

Python values are modelled by the inductive `PyVal`.  Python lists and
dicts are modelled as cons-structures (`nilV`/`consV`, `nilD`/`consD`);
Python dicts preserve insertion order and have unique string keys, and an
association structure models them faithfully.  Python floats are modelled
as rationals (no claim here depends on floating-point rounding).  Mitsuba
`ScalarTransform4f` objects are modelled symbolically as constructors
recording which transform-building operation produced them; a partial
semantic view (`transTranslation`) extracts the translation column of the
underlying 4x4 matrix where the constructor alone determines it.
-/

/-- Model of a Python value as it appears in the scene/params dictionaries.
`pyNone` is Python `None`, also used as totalization junk where the Python
code would raise.  The `trans…` constructors model built Mitsuba
`ScalarTransform4f` objects:
* `transMat2D v` is `ScalarTransform4f(np.array(v))` for a 2-D list `v`;
* `transMatFlat v` is `ScalarTransform4f(np.array(v).reshape(4,4))`;
* `transLookAt o t u` is `ScalarTransform4f.look_at(o, t, u)`;
* `transCompose a b` is the composition `a @ b`. -/
inductive PyVal where
  | pyNone : PyVal
  | int (n : Int) : PyVal
  | rat (q : ℚ) : PyVal
  | str (s : String) : PyVal
  | bool (b : Bool) : PyVal
  | nilV : PyVal
  | consV (hd tl : PyVal) : PyVal
  | nilD : PyVal
  | consD (k : String) (v rest : PyVal) : PyVal
  | transMat2D (rows : PyVal) : PyVal
  | transMatFlat (vals : PyVal) : PyVal
  | transLookAt (origin target up : PyVal) : PyVal
  | transTranslate (v : PyVal) : PyVal
  | transScale (v : PyVal) : PyVal
  | transRotate (axis angle : PyVal) : PyVal
  | transIdentity : PyVal
  | transCompose (a b : PyVal) : PyVal
  deriving DecidableEq, Repr

namespace PyVal

/-- Build a modelled Python list from a Lean list. -/
def ofList : List PyVal → PyVal
  | [] => nilV
  | x :: xs => consV x (ofList xs)

/-- Build a modelled Python dict from a Lean association list. -/
def ofDict : List (String × PyVal) → PyVal
  | [] => nilD
  | (k, v) :: es => consD k v (ofDict es)

/-- `isinstance(v, list)`. -/
def isList : PyVal → Bool
  | nilV => true
  | consV _ _ => true
  | _ => false

/-- `isinstance(v, dict)`. -/
def isDict : PyVal → Bool
  | nilD => true
  | consD _ _ _ => true
  | _ => false

/-- `isinstance(v, (int, float))` — Python `bool` is a subclass of `int`. -/
def isNum : PyVal → Bool
  | int _ => true
  | rat _ => true
  | bool _ => true
  | _ => false

/-- Does this value model a built Mitsuba transform object? -/
def isTransform : PyVal → Bool
  | transMat2D _ => true
  | transMatFlat _ => true
  | transLookAt _ _ _ => true
  | transTranslate _ => true
  | transScale _ => true
  | transRotate _ _ => true
  | transIdentity => true
  | transCompose _ _ => true
  | _ => false

/-- Key lookup in a modelled dict (first matching key; Python dicts have
unique keys).  Returns `Option.none` on non-dicts and missing keys. -/
def findKey (key : String) : PyVal → Option PyVal
  | consD k v rest => if k = key then some v else findKey key rest
  | _ => Option.none

/-- `d.get(key, dflt)` on a Python dict. -/
def pyGet (d : PyVal) (key : String) (dflt : PyVal) : PyVal :=
  (findKey key d).getD dflt

/-- `key in d` on a Python dict. -/
def pyMem (d : PyVal) (key : String) : Bool :=
  (findKey key d).isSome

theorem sizeOf_findKey {key : String} :
    ∀ {d c : PyVal}, findKey key d = some c → sizeOf c < sizeOf d := by
  intro d
  induction d with
  | consD k v rest ihv ihr =>
      intro c h
      rw [findKey] at h
      by_cases hk : k = key
      · simp [hk] at h
        subst h
        simp
        omega
      · simp [hk] at h
        have := ihr h
        simp
        omega
  | _ => intro c h; simp [findKey] at h

theorem sizeOf_findKey_child {d c : PyVal} (h : findKey "child" d = some c) :
    sizeOf c < sizeOf d := sizeOf_findKey h

end PyVal

open PyVal

/-! ### Transform building — `src/gui/utils/render_subprocess.py`

`_build_transform(transform_dict, mi)` (lines 145–175 of
render_subprocess.py).  The `'look_at'` branch is present here. -/

/-- Zero-vector default `[0, 0, 0]` used by several `.get` calls. -/
def vzero : PyVal := ofList [.int 0, .int 0, .int 0]

/-- Model of `_build_transform` in render_subprocess.py.  On a non-dict
argument Python would raise inside `.get`; the model returns the identity
transform there (both implementations are totalized identically). -/
def buildTransformS (d : PyVal) : PyVal :=
  let t := pyGet d "type" (.str "identity")
  let base : PyVal :=
    if t = .str "look_at" then
      .transLookAt (pyGet d "origin" vzero) (pyGet d "target" vzero)
        (pyGet d "up" (ofList [.int 0, .int 1, .int 0]))
    else if t = .str "translate" then
      .transTranslate (pyGet d "value" vzero)
    else if t = .str "scale" then
      let v := pyGet d "value" (.rat 1)
      if v.isNum then .transScale (ofList [v, v, v]) else .transScale v
    else if t = .str "rotate" then
      .transRotate (pyGet d "axis" (ofList [.int 0, .int 0, .int 1]))
        (pyGet d "angle" (.rat 0))
    else
      .transIdentity
  match h : findKey "child" d with
  | some c => .transCompose base (buildTransformS c)
  | Option.none => base
termination_by sizeOf d
decreasing_by exact sizeOf_findKey_child h

/-- Model of `_build_transform_from_dict` in renderer.py (lines 162–192).
Identical to `buildTransformS` except that it has NO `'look_at'` branch:
a `look_at` transform dictionary falls through to the identity default. -/
def buildTransformR (d : PyVal) : PyVal :=
  let t := pyGet d "type" (.str "identity")
  let base : PyVal :=
    if t = .str "translate" then
      .transTranslate (pyGet d "value" vzero)
    else if t = .str "scale" then
      let v := pyGet d "value" (.rat 1)
      if v.isNum then .transScale (ofList [v, v, v]) else .transScale v
    else if t = .str "rotate" then
      .transRotate (pyGet d "axis" (ofList [.int 0, .int 0, .int 1]))
        (pyGet d "angle" (.rat 0))
    else
      .transIdentity
  match h : findKey "child" d with
  | some c => .transCompose base (buildTransformR c)
  | Option.none => base
termination_by sizeOf d
decreasing_by exact sizeOf_findKey_child h

/-- The matrix case of the `to_world` conversion, shared verbatim by both
implementations: a 2-D list becomes `ScalarTransform4f(np.array(v))`, a
flat list becomes `ScalarTransform4f(np.array(v).reshape(4,4))` (Python
raises `IndexError` on an empty list; the model files it under the flat
case in both implementations alike). -/
def convertMatrix (v : PyVal) : PyVal :=
  match v with
  | .consV h _ => if h.isList then .transMat2D v else .transMatFlat v
  | _ => .transMatFlat v

/-- Conversion applied to a `to_world` value by `_process_recursive`
(render_subprocess.py): lists become matrix transforms, dicts are built by
`_build_transform`, anything else is left untouched. -/
def convertToWorldS (v : PyVal) : PyVal :=
  if v.isList then convertMatrix v
  else if v.isDict then buildTransformS v
  else v

/-- Conversion applied to a `to_world` value by
`_process_transforms_recursive` (renderer.py). -/
def convertToWorldR (v : PyVal) : PyVal :=
  if v.isList then convertMatrix v
  else if v.isDict then buildTransformR v
  else v

/-- Model of `preprocess_transforms` / `_process_recursive` in
render_subprocess.py (lines 106–143).  The Python code deep-copies the
argument and then mutates the copy in place; the model is the resulting
pure function from the input dictionary to the processed copy.  Values
under a `'to_world'` key are converted and not recursed into; every other
entry is processed recursively; non-dict non-list values are untouched. -/
def preprocessS : PyVal → PyVal
  | .nilD => .nilD
  | .consD k v rest =>
      .consD k (if k = "to_world" then convertToWorldS v else preprocessS v)
        (preprocessS rest)
  | .nilV => .nilV
  | .consV h t => .consV (preprocessS h) (preprocessS t)
  | v => v

/-- Model of `RenderWorker._preprocess_scene_dict` /
`_process_transforms_recursive` in renderer.py (lines 110–160): the same
recursion with `convertToWorldR` in place of `convertToWorldS`. -/
def preprocessR : PyVal → PyVal
  | .nilD => .nilD
  | .consD k v rest =>
      .consD k (if k = "to_world" then convertToWorldR v else preprocessR v)
        (preprocessR rest)
  | .nilV => .nilV
  | .consV h t => .consV (preprocessR h) (preprocessR t)
  | v => v

/-- `noLookAt v` holds when no dictionary entry anywhere inside `v` maps
the key `"type"` to the string `"look_at"`. -/
def noLookAt : PyVal → Bool
  | .consD k v rest =>
      !(k = "type" && v = .str "look_at") && noLookAt v && noLookAt rest
  | .consV h t => noLookAt h && noLookAt t
  | .transMat2D v => noLookAt v
  | .transMatFlat v => noLookAt v
  | .transLookAt o t u => noLookAt o && noLookAt t && noLookAt u
  | .transTranslate v => noLookAt v
  | .transScale v => noLookAt v
  | .transRotate a b => noLookAt a && noLookAt b
  | .transCompose a b => noLookAt a && noLookAt b
  | _ => true

/-- Partial semantics of the modelled transforms: the translation column
of the underlying 4x4 matrix, where the constructor alone determines it
(as a triple of rationals).  `look_at(origin, …)` places `origin` in the
translation column; `translate v` has translation `v`; scale, rotate,
identity and matrix-free constructors have translation zero; compositions
and explicit matrices are left undetermined. -/
def toTriple : PyVal → Option (ℚ × ℚ × ℚ)
  | .consV (.int a) (.consV (.int b) (.consV (.int c) .nilV)) =>
      some ((a : ℚ), (b : ℚ), (c : ℚ))
  | .consV (.rat a) (.consV (.rat b) (.consV (.rat c) .nilV)) =>
      some (a, b, c)
  | _ => Option.none

/-- Translation column of a modelled transform, when determined. -/
def transTranslation : PyVal → Option (ℚ × ℚ × ℚ)
  | .transIdentity => some (0, 0, 0)
  | .transLookAt o _ _ => toTriple o
  | .transTranslate v => toTriple v
  | .transScale _ => some (0, 0, 0)
  | .transRotate _ _ => some (0, 0, 0)
  | _ => Option.none

/-! ### Stdout line protocol — `SubprocessRenderer._on_stdout`
(subprocess_renderer.py lines 103–121) and the child-side emitters
`log` / `progress` (render_subprocess.py lines 16–24).

Lines are modelled as `List Char`.  `pyInt` models Python's `int(str)`
(surrounding whitespace, optional sign, digits with single underscores
between digits); `splitOnChar` models `str.split(sep)` for a one-character
separator; `pyStrip` models `str.strip()`. -/

/-- `str.strip()`: drop whitespace from both ends. -/
def pyStrip (l : List Char) : List Char :=
  ((l.dropWhile Char.isWhitespace).reverse.dropWhile Char.isWhitespace).reverse

/-- `str.split(sep)` for a single-character separator: `"" → [""]`,
separators at the ends produce empty fields. -/
def splitOnChar (sep : Char) : List Char → List (List Char)
  | [] => [[]]
  | c :: cs =>
      let r := splitOnChar sep cs
      if c = sep then [] :: r
      else
        match r with
        | [] => [[c]]
        | h :: t => (c :: h) :: t

/-- Digit run of Python `int()`, after the first digit: single underscores
are allowed between digits only. -/
def pyDigitsGo (acc : Nat) : List Char → Option Nat
  | [] => some acc
  | '_' :: c :: cs =>
      if c.isDigit then pyDigitsGo (acc * 10 + (c.toNat - 48)) cs else Option.none
  | ['_'] => Option.none
  | c :: cs =>
      if c.isDigit then pyDigitsGo (acc * 10 + (c.toNat - 48)) cs else Option.none

/-- Digit run of Python `int()`: at least one digit, which must come first. -/
def pyDigitsStart : List Char → Option Nat
  | [] => Option.none
  | c :: cs => if c.isDigit then pyDigitsGo (c.toNat - 48) cs else Option.none

/-- Python `int(s)`: strip whitespace, optional sign, digit run. -/
def pyInt (l : List Char) : Option Int :=
  match pyStrip l with
  | '+' :: rest => (pyDigitsStart rest).map (fun n => (n : Int))
  | '-' :: rest => (pyDigitsStart rest).map (fun n => -(n : Int))
  | rest => (pyDigitsStart rest).map (fun n => (n : Int))

/-- The two Qt signals `_on_stdout` can emit for a line. -/
inductive StdoutEmit where
  | progressUpdated (n : Int) : StdoutEmit
  | logMessage (msg : List Char) : StdoutEmit
  deriving DecidableEq, Repr

/-- Classification of one (already ANSI-stripped, non-empty) line by
`SubprocessRenderer._on_stdout`:
`PROGRESS:`-prefixed lines whose first colon-separated payload parses via
`int()` emit `progress_updated` (the bare `except: pass` swallows parse
failures); `LOG:`-prefixed lines emit `log_message` with `line[4:].strip()`;
anything else only goes to the debug logger and emits no signal. -/
def classifyLine (line : List Char) : Option StdoutEmit :=
  if "PROGRESS:".toList.isPrefixOf line then
    match pyInt ((splitOnChar ':' line).getD 1 []) with
    | some n => some (.progressUpdated n)
    | Option.none => Option.none
  else if "LOG:".toList.isPrefixOf line then
    some (.logMessage (pyStrip (line.drop 4)))
  else Option.none

/-- Whole-chunk behaviour of `_on_stdout`: strip the chunk, split on
newlines, skip empty lines, classify each line. -/
def onStdoutEmits (data : List Char) : List StdoutEmit :=
  ((splitOnChar '\n' (pyStrip data)).filter (fun l => l ≠ [])).filterMap classifyLine

/-! ### Child render process — `render_subprocess.py main` (lines 26–103)

The fallible operations of `main` are named by `ChildOp`; an execution is
driven by an oracle `raises : ChildOp → Option String` giving the
exception message of the first operation that raises, if any (`mi.render`,
`mi.load_dict`, PIL, pickle and the filesystem are external).  `main`'s
body is the straight-line action list `mainBody`; `runActions` executes it
until an operation raises.  `sys.exit(0)` raises `SystemExit`, which
`except Exception` does not catch, so reaching the end of the body yields
exit code 0. -/

/-- The fallible operations of `main`, in source order.  `loadSceneData`
covers the `open`/`pickle.load` block and the two `data[…]` lookups;
`saveImage` covers the Bitmap/numpy/PIL block through `img.save`;
`cleanupTemp` is `Path(scene_file).unlink(missing_ok=True)`. -/
inductive ChildOp where
  | importMitsuba : ChildOp
  | loadSceneData : ChildOp
  | setVariant : ChildOp
  | preprocessScene : ChildOp
  | loadScene : ChildOp
  | renderScene : ChildOp
  | saveImage : ChildOp
  | cleanupTemp : ChildOp
  deriving DecidableEq, Repr

/-- One straight-line action of `main`: a fallible operation (with the
argument the model tracks — the `spp` value for `mi.render`, `pyNone`
elsewhere), a `progress(n)` print, or a `log(msg)` print. -/
inductive ChildAction where
  | opA (o : ChildOp) (arg : PyVal) : ChildAction
  | progressA (n : Nat) : ChildAction
  | logA (s : String) : ChildAction
  deriving DecidableEq, Repr

/-- Python `str()` on the values that reach the child's f-strings. -/
def pyStr : PyVal → String
  | .str s => s
  | .int n => toString n
  | .bool b => if b then "True" else "False"
  | _ => "object"

/-- `spp = params.get('spp', 256)` at render_subprocess.py line 64, the
value `mi.render(scene, spp=spp)` is called with. -/
def childRenderSpp (params : PyVal) : PyVal :=
  pyGet params "spp" (.int 256)

/-- `spp = self.params.get('spp', 256)` at renderer.py line 66
(`RenderWorker.run`), the value `mi.render(scene, spp=spp)` is called
with. -/
def workerRenderSpp (params : PyVal) : PyVal :=
  pyGet params "spp" (.int 256)

/-- The straight-line body of `main` after the argv check, in source
order, given the `params` dict recovered from the pickle file and the
output filename. -/
def mainBody (params : PyVal) (outputFile : String) : List ChildAction :=
  [.logA "Importing Mitsuba...",
   .opA .importMitsuba .pyNone,
   .logA "Loading scene data...",
   .opA .loadSceneData .pyNone,
   .logA ("Setting variant: " ++ pyStr (pyGet params "variant" (.str "scalar_rgb"))),
   .opA .setVariant .pyNone,
   .progressA 5,
   .logA "Preprocessing scene...",
   .opA .preprocessScene .pyNone,
   .progressA 10,
   .logA "Loading scene...",
   .opA .loadScene .pyNone,
   .progressA 20,
   .logA ("Rendering (" ++ pyStr (childRenderSpp params) ++ " spp)..."),
   .progressA 30,
   .opA .renderScene (childRenderSpp params),
   .progressA 80,
   .logA "Saving image...",
   .opA .saveImage .pyNone,
   .progressA 100,
   .logA ("Render complete: " ++ outputFile),
   .opA .cleanupTemp .pyNone]

/-- Execute a straight-line action list: run until the first operation
whose oracle entry is an exception message; return the executed prefix
and the exception, if one was raised. -/
def runActions (raises : ChildOp → Option String) :
    List ChildAction → List ChildAction × Option String
  | [] => ([], Option.none)
  | a :: rest =>
      match a with
      | .opA o _ =>
          match raises o with
          | some msg => ([a], some msg)
          | Option.none =>
              let r := runActions raises rest
              (a :: r.1, r.2)
      | _ =>
          let r := runActions raises rest
          (a :: r.1, r.2)

/-- The `PROGRESS:` values printed by an executed action list, in order. -/
def progressTrace (acts : List ChildAction) : List Nat :=
  acts.filterMap (fun a => match a with | .progressA n => some n | _ => Option.none)

/-- Result of the child process: exit code and the `ERROR:`-prefixed
stderr line, if one was printed. -/
structure ChildExit where
  exitCode : Nat
  stderrLine : Option String
  deriving DecidableEq, Repr

/-- `main`: with other than exactly two command-line arguments (i.e.
`len(sys.argv) != 3`), print `ERROR:Invalid arguments` to stderr and exit
1; otherwise run the body, and on an exception print `ERROR:` plus the
message to stderr and exit 1, else exit 0. -/
def childMain (argv : List String) (params : PyVal) (outputFile : String)
    (raises : ChildOp → Option String) : ChildExit :=
  if argv.length ≠ 3 then ⟨1, some "ERROR:Invalid arguments"⟩
  else
    match (runActions raises (mainBody params outputFile)).2 with
    | some msg => ⟨1, some ("ERROR:" ++ msg)⟩
    | Option.none => ⟨0, Option.none⟩

/-- The `PROGRESS:` values printed by a run of `main` that got past the
argv check. -/
def childProgressTrace (params : PyVal) (outputFile : String)
    (raises : ChildOp → Option String) : List Nat :=
  progressTrace (runActions raises (mainBody params outputFile)).1

/-! ### Pickle — the serialization boundary of `render_scene`

`pickle.dump({'scene_dict': …, 'params': …}, f)` /  `pickle.load(f)`.
Pickle is modelled as a concrete prefix token encoding of `PyVal` with a
fuel-indexed decoder; `pickleLoads (pickleDumps v) = some v` is proved
below, realizing pickle's documented roundtrip guarantee on plain data. -/

/-- Tokens of the modelled pickle stream. -/
inductive PTok where
  | tNone : PTok
  | tInt (n : Int) : PTok
  | tRat (q : ℚ) : PTok
  | tStr (s : String) : PTok
  | tBool (b : Bool) : PTok
  | tNilV : PTok
  | tConsV : PTok
  | tNilD : PTok
  | tConsD (k : String) : PTok
  | tMat2D : PTok
  | tMatFlat : PTok
  | tLookAt : PTok
  | tTranslate : PTok
  | tScale : PTok
  | tRotate : PTok
  | tIdent : PTok
  | tCompose : PTok
  deriving DecidableEq, Repr

/-- `pickle.dumps`: prefix encoding of a `PyVal` as a token stream. -/
def pickleDumps : PyVal → List PTok
  | .pyNone => [.tNone]
  | .int n => [.tInt n]
  | .rat q => [.tRat q]
  | .str s => [.tStr s]
  | .bool b => [.tBool b]
  | .nilV => [.tNilV]
  | .consV h t => .tConsV :: pickleDumps h ++ pickleDumps t
  | .nilD => [.tNilD]
  | .consD k v r => .tConsD k :: pickleDumps v ++ pickleDumps r
  | .transMat2D v => .tMat2D :: pickleDumps v
  | .transMatFlat v => .tMatFlat :: pickleDumps v
  | .transLookAt o t u => .tLookAt :: pickleDumps o ++ pickleDumps t ++ pickleDumps u
  | .transTranslate v => .tTranslate :: pickleDumps v
  | .transScale v => .tScale :: pickleDumps v
  | .transRotate a b => .tRotate :: pickleDumps a ++ pickleDumps b
  | .transIdentity => [.tIdent]
  | .transCompose a b => .tCompose :: pickleDumps a ++ pickleDumps b

/-- Constructor depth of a `PyVal`, a fuel bound for the decoder. -/
def pdepth : PyVal → Nat
  | .consV h t => 1 + max (pdepth h) (pdepth t)
  | .consD _ v r => 1 + max (pdepth v) (pdepth r)
  | .transMat2D v => 1 + pdepth v
  | .transMatFlat v => 1 + pdepth v
  | .transLookAt o t u => 1 + max (pdepth o) (max (pdepth t) (pdepth u))
  | .transTranslate v => 1 + pdepth v
  | .transScale v => 1 + pdepth v
  | .transRotate a b => 1 + max (pdepth a) (pdepth b)
  | .transCompose a b => 1 + max (pdepth a) (pdepth b)
  | _ => 1

/-- Fuel-indexed decoder: parse one value, return it with the unread
tokens. -/
def pickleDec : Nat → List PTok → Option (PyVal × List PTok)
  | 0, _ => Option.none
  | _ + 1, [] => Option.none
  | fuel + 1, tok :: rest =>
      match tok with
      | .tNone => some (.pyNone, rest)
      | .tInt n => some (.int n, rest)
      | .tRat q => some (.rat q, rest)
      | .tStr s => some (.str s, rest)
      | .tBool b => some (.bool b, rest)
      | .tNilV => some (.nilV, rest)
      | .tNilD => some (.nilD, rest)
      | .tIdent => some (.transIdentity, rest)
      | .tConsV =>
          (pickleDec fuel rest).bind fun (h, r1) =>
            (pickleDec fuel r1).map fun (t, r2) => (.consV h t, r2)
      | .tConsD k =>
          (pickleDec fuel rest).bind fun (v, r1) =>
            (pickleDec fuel r1).map fun (r, r2) => (.consD k v r, r2)
      | .tMat2D => (pickleDec fuel rest).map fun (v, r1) => (.transMat2D v, r1)
      | .tMatFlat => (pickleDec fuel rest).map fun (v, r1) => (.transMatFlat v, r1)
      | .tLookAt =>
          (pickleDec fuel rest).bind fun (o, r1) =>
            (pickleDec fuel r1).bind fun (t, r2) =>
              (pickleDec fuel r2).map fun (u, r3) => (.transLookAt o t u, r3)
      | .tTranslate => (pickleDec fuel rest).map fun (v, r1) => (.transTranslate v, r1)
      | .tScale => (pickleDec fuel rest).map fun (v, r1) => (.transScale v, r1)
      | .tRotate =>
          (pickleDec fuel rest).bind fun (a, r1) =>
            (pickleDec fuel r1).map fun (b, r2) => (.transRotate a b, r2)
      | .tCompose =>
          (pickleDec fuel rest).bind fun (a, r1) =>
            (pickleDec fuel r1).map fun (b, r2) => (.transCompose a b, r2)

/-- `pickle.loads`: decode a whole token stream (the stream length bounds
the needed fuel). -/
def pickleLoads (toks : List PTok) : Option PyVal :=
  match pickleDec (toks.length + 1) toks with
  | some (v, []) => some v
  | _ => Option.none

/-! ### Parent-side dispatcher — `subprocess_renderer.py SubprocessRenderer` -/

/-- States of a `QProcess` (`QProcess.ProcessState`). -/
inductive ProcState where
  | notRunning : ProcState
  | starting : ProcState
  | running : ProcState
  deriving DecidableEq, Repr

/-- The mutable fields of a `SubprocessRenderer` that the claims are
about: the `QProcess` handle (with its state) and the tracked temp-file
names. -/
structure SubRendererState where
  outputDir : String
  process : Option ProcState
  tempFiles : List String
  deriving DecidableEq, Repr

/-- Observable effects of the parent-side methods: Qt signal emissions,
loguru calls, process control, and filesystem writes. -/
inductive PEvent where
  | logSignal (s : String) : PEvent
  | loggerWarn (s : String) : PEvent
  | loggerInfo (s : String) : PEvent
  | writeTempFile (name : String) (content : List PTok) : PEvent
  | startProcess (program : String) (args : List String) : PEvent
  | terminateProc : PEvent
  | waitForFinished (ms : Nat) : PEvent
  | killProc : PEvent
  | progressSignal (n : Int) : PEvent
  | renderCompleteSignal (outputPath : String) : PEvent
  | renderFailedSignal (msg : String) : PEvent
  deriving DecidableEq, Repr

/-- `self.process and self.process.state() == QProcess.ProcessState.Running`. -/
def processRunning (p : Option ProcState) : Bool :=
  match p with
  | some .running => true
  | _ => false

/-- Model of `SubprocessRenderer.render_scene` (lines 40–102).  External
inputs of the run are parameters: `tempName` is the fresh name handed out
by `tempfile.NamedTemporaryFile`, `pythonExe`/`scriptPath` the interpreter
and script paths, and `startOk` whether `waitForStarted(3000)` succeeded.
If a previous process is still `Running`, the method only warns and
returns; otherwise it pickles `{'scene_dict': …, 'params': …}` to the
temp file, records the temp file, and starts the child with the temp-file
name and `output_dir / output_filename` as its two arguments. -/
def renderSceneModel (st : SubRendererState) (sceneDict params : PyVal)
    (outputFilename : String) (tempName pythonExe scriptPath : String)
    (startOk : Bool) : SubRendererState × List PEvent :=
  if processRunning st.process then
    (st, [.loggerWarn "Render already in progress",
          .logSignal "⚠️  Render already in progress"])
  else
    let payload := pickleDumps (ofDict [("scene_dict", sceneDict), ("params", params)])
    let outputPath := st.outputDir ++ "/" ++ outputFilename
    let started : SubRendererState :=
      { st with process := some .running, tempFiles := st.tempFiles ++ [tempName] }
    let events : List PEvent :=
      [.writeTempFile tempName payload,
       .logSignal "🚀 Starting render process...",
       .startProcess pythonExe [scriptPath, tempName, outputPath]]
    if startOk then
      (started, events)
    else
      ({ started with process := some .notRunning },
       events ++ [.logSignal "❌ Failed to start render: Failed to start render process",
                  .renderFailedSignal "Failed to start render process"])

/-- The child-side recovery of the payload (render_subprocess.py lines
39–45): `pickle.load` on the file contents, then `data['scene_dict']` and
`data['params']` (a missing key raises). -/
def childLoadData (content : List PTok) : Option (PyVal × PyVal) :=
  (pickleLoads content).bind fun data =>
    match findKey "scene_dict" data, findKey "params" data with
    | some s, some p => some (s, p)
    | _, _ => Option.none

/-- Model of `SubprocessRenderer._on_finished(output_path)` (lines
136–158): on exit code 0, try to open the saved image — success emits
`render_complete`, failure emits `render_failed`; on any nonzero exit
code emit `render_failed` with the exit-code message. -/
def onFinishedModel (exitCode : Int) (outputPath outputName : String)
    (openResult : Except String Unit) : List PEvent :=
  if exitCode = 0 then
    match openResult with
    | .ok _ =>
        [.logSignal ("✅ Render complete: " ++ outputName),
         .renderCompleteSignal outputPath]
    | .error e =>
        [.renderFailedSignal ("Failed to load image: " ++ e)]
  else
    [.logSignal ("❌ Render failed with exit code " ++ toString exitCode),
     .renderFailedSignal ("Render failed with exit code " ++ toString exitCode)]

/-- Model of `SubprocessRenderer.cancel_render` (lines 160–169).
`gracefulStop` is whether `waitForFinished(3000)` returned true.  When a
process is `Running`: terminate, wait up to 3000 ms, and if that fails,
kill unconditionally and wait up to 1000 ms more; then emit the
cancellation message.  Otherwise: no state change and no events. -/
def cancelRenderModel (st : SubRendererState) (gracefulStop : Bool) :
    SubRendererState × List PEvent :=
  if processRunning st.process then
    (st,
     [.loggerInfo "Terminating render process", .terminateProc, .waitForFinished 3000] ++
       (if gracefulStop then []
        else [.loggerWarn "Process did not terminate gracefully, killing...",
              .killProc, .waitForFinished 1000]) ++
       [.logSignal "❌ Render cancelled"])
  else
    (st, [])

/-! ### Scene generator — `src/gui_examples/basic_scene.py`

`BasicSceneGenerator.generate(params)` (lines 12–137): a pure function
from the params dict to a nested scene dict.  The `material_color` tuple
is modelled as a list; Python float literals are written as the rationals
they denote. -/

/-- Python numeric multiplication, for `camera_distance * 0.707` etc.
(`bool` operands behave as `0`/`1`; non-numeric operands would raise). -/
def boolToInt : PyVal → PyVal
  | .bool b => .int (if b then 1 else 0)
  | v => v

def pyMul (x y : PyVal) : PyVal :=
  match boolToInt x, boolToInt y with
  | .int m, .int n => .int (m * n)
  | .int m, .rat q => .rat (m * q)
  | .rat q, .int n => .rat (q * n)
  | .rat p, .rat q => .rat (p * q)
  | _, _ => .pyNone

/-- Model of `BasicSceneGenerator.generate`. -/
def basicSceneGenerate (params : PyVal) : PyVal :=
  let width := pyGet params "width" (.int 800)
  let height := pyGet params "height" (.int 600)
  let sphereRadius := pyGet params "sphere_radius" (.rat 1)
  let sphereX := pyGet params "sphere_x" (.rat 0)
  let sphereY := pyGet params "sphere_y" (.rat 0)
  let sphereZ := pyGet params "sphere_z" (.rat 0)
  let cameraDistance := pyGet params "camera_distance" (.rat 5)
  let materialType := pyGet params "material_type" (.str "diffuse")
  let materialColor :=
    pyGet params "material_color" (ofList [.rat (4/5), .rat (1/5), .rat (1/5)])
  let roughness := pyGet params "roughness" (.rat (1/10))
  let bsdf : PyVal :=
    if materialType = .str "diffuse" then
      ofDict [("type", .str "diffuse"),
              ("reflectance", ofDict [("type", .str "rgb"), ("value", materialColor)])]
    else if materialType = .str "conductor" then
      ofDict [("type", .str "roughconductor"),
              ("material", .str "Cu"),
              ("alpha", roughness)]
    else if materialType = .str "dielectric" then
      ofDict [("type", .str "dielectric"),
              ("int_ior", .rat (3/2)),
              ("ext_ior", .rat 1)]
    else
      ofDict [("type", .str "plastic"),
              ("diffuse_reflectance",
               ofDict [("type", .str "rgb"), ("value", materialColor)]),
              ("nonlinear", .bool true)]
  ofDict
    [("type", .str "scene"),
     ("integrator", ofDict [("type", .str "path")]),
     ("sensor",
      ofDict
        [("type", .str "perspective"),
         ("fov", .int 39),
         ("to_world",
          ofDict
            [("type", .str "look_at"),
             ("origin",
              ofList [pyMul cameraDistance (.rat (707/1000)),
                      pyMul cameraDistance (.rat (707/1000)),
                      pyMul cameraDistance (.rat (1/2))]),
             ("target", ofList [.int 0, .int 0, .rat (1/2)]),
             ("up", ofList [.int 0, .int 0, .int 1])]),
         ("film",
          ofDict
            [("type", .str "hdrfilm"),
             ("width", width),
             ("height", height),
             ("pixel_format", .str "rgb")])]),
     ("sphere",
      ofDict
        [("type", .str "sphere"),
         ("radius", sphereRadius),
         ("center", ofList [sphereX, sphereY, sphereZ]),
         ("bsdf", bsdf)]),
     ("ground",
      ofDict
        [("type", .str "rectangle"),
         ("to_world",
          ofDict
            [("type", .str "translate"),
             ("value", ofList [.int 0, .int 0, .int (-1)]),
             ("child", ofDict [("type", .str "scale"), ("value", .int 20)])]),
         ("bsdf",
          ofDict
            [("type", .str "diffuse"),
             ("reflectance",
              ofDict [("type", .str "rgb"),
                      ("value", ofList [.rat (4/5), .rat (4/5), .rat (4/5)])])])]),
     ("light",
      ofDict
        [("type", .str "point"),
         ("intensity", ofDict [("type", .str "spectrum"), ("value", .rat 100)]),
         ("position", ofList [.int 3, .int 3, .int 4])])]

/-! ### Spec-side notions used by the claims -/

/-- Frame relation of claim C9, following the spec's words: `frameEq d r`
holds when `r` is obtained from `d` by replacing exactly the values stored
under `'to_world'` keys that are lists or dictionaries with built
transform objects, leaving every other entry structurally equal (with the
same replacement applied inside nested entries). -/
def frameEq : PyVal → PyVal → Bool
  | .consD k v r, .consD k' v' r' =>
      (k = k' : Bool) &&
        (if k = "to_world" then
           if v.isList || v.isDict then v'.isTransform else (v = v' : Bool)
         else frameEq v v') &&
        frameEq r r'
  | .nilD, .nilD => true
  | .consV h t, .consV h' t' => frameEq h h' && frameEq t t'
  | .nilV, .nilV => true
  | v, v' => (v = v' : Bool)

/-- A scene dictionary whose sensor carries a `look_at` `to_world`
transform — the shape `BasicSceneGenerator.generate` actually produces. -/
def lookAtSensorDict : PyVal :=
  ofDict
    [("sensor",
      ofDict
        [("to_world",
          ofDict
            [("type", .str "look_at"),
             ("origin", ofList [.int 0, .int 0, .int 5]),
             ("target", vzero),
             ("up", ofList [.int 0, .int 1, .int 0])])])]

/-! ## Claim theorems -/

/-- **C3** — The samples-per-pixel parameter is passed through unmodified:
for every params dict mapping `'spp'` to `v`, both the child process
(render_subprocess.py line 64) and `RenderWorker.run` (renderer.py line
66) call `mi.render(scene, spp=spp)` with that very `v` — the render
action in the child's body carries exactly `childRenderSpp params` — and
when `'spp'` is absent the value 256 is used. -/
theorem spp_passed_unmodified (params : PyVal) (outFile : String) :
    (∀ v, findKey "spp" params = some v →
      childRenderSpp params = v ∧ workerRenderSpp params = v) ∧
    (findKey "spp" params = Option.none →
      childRenderSpp params = .int 256 ∧ workerRenderSpp params = .int 256) ∧
    ChildAction.opA .renderScene (childRenderSpp params) ∈ mainBody params outFile := by
  refine ⟨fun v h => ?_, fun h => ?_, ?_⟩
  · simp [childRenderSpp, workerRenderSpp, pyGet, h]
  · simp [childRenderSpp, workerRenderSpp, pyGet, h]
  · simp [mainBody]

/-- Witness for C3 at concrete inputs. -/
theorem spp_passed_unmodified_witness :
    childRenderSpp (ofDict [("spp", .int 64)]) = .int 64 ∧
    childRenderSpp .nilD = .int 256 := by
  refine ⟨((spp_passed_unmodified (ofDict [("spp", .int 64)]) "out.png").1
    (.int 64) ?_).1, ((spp_passed_unmodified .nilD "out.png").2.1 ?_).1⟩
  · decide
  · decide

/-- **C5** — At most one render child process at a time: whenever
`self.process` is `Running`, `render_scene` only logs a warning and emits
the warning log message, starts no process, writes no temp file, and
returns the state (process handle, temp-file list, every field)
unchanged. -/
theorem render_scene_busy_guard (st : SubRendererState) (sceneDict params : PyVal)
    (ofn tmp py spath : String) (startOk : Bool)
    (h : st.process = some .running) :
    renderSceneModel st sceneDict params ofn tmp py spath startOk =
      (st, [.loggerWarn "Render already in progress",
            .logSignal "⚠️  Render already in progress"]) := by
  simp [renderSceneModel, processRunning, h]

/-- Witness for C5 at a concrete running state. -/
theorem render_scene_busy_guard_witness :
    renderSceneModel ⟨"renders", some .running, ["t0.pkl"]⟩ .nilD .nilD
        "render.png" "t1.pkl" "python" "render_subprocess.py" true =
      (⟨"renders", some .running, ["t0.pkl"]⟩,
       [.loggerWarn "Render already in progress",
        .logSignal "⚠️  Render already in progress"]) :=
  render_scene_busy_guard ⟨"renders", some .running, ["t0.pkl"]⟩ .nilD .nilD
    "render.png" "t1.pkl" "python" "render_subprocess.py" true rfl

/-- **C6** — `cancel_render` kills the child on cancel: with a `Running`
process it terminates, waits up to 3000 ms, escalates to `kill()` (plus a
1000 ms wait) exactly when the graceful wait failed, and emits the
cancellation message; with no running process it changes no state and
emits nothing. -/
theorem cancel_render_behaviour (st : SubRendererState) (graceful : Bool) :
    (st.process = some .running → graceful = true →
       cancelRenderModel st graceful =
         (st, [.loggerInfo "Terminating render process", .terminateProc,
               .waitForFinished 3000, .logSignal "❌ Render cancelled"])) ∧
    (st.process = some .running → graceful = false →
       cancelRenderModel st graceful =
         (st, [.loggerInfo "Terminating render process", .terminateProc,
               .waitForFinished 3000,
               .loggerWarn "Process did not terminate gracefully, killing...",
               .killProc, .waitForFinished 1000,
               .logSignal "❌ Render cancelled"])) ∧
    (processRunning st.process = false → cancelRenderModel st graceful = (st, [])) := by
  refine ⟨fun h hg => ?_, fun h hg => ?_, fun h => ?_⟩
  · subst hg; simp [cancelRenderModel, processRunning, h]
  · subst hg; simp [cancelRenderModel, processRunning, h]
  · simp [cancelRenderModel, h]

/-- Witness for C6: graceful cancel of a running process, and a no-op on
an idle renderer. -/
theorem cancel_render_behaviour_witness :
    cancelRenderModel ⟨"renders", some .running, []⟩ true =
      (⟨"renders", some .running, []⟩,
       [.loggerInfo "Terminating render process", .terminateProc,
        .waitForFinished 3000, .logSignal "❌ Render cancelled"]) ∧
    cancelRenderModel ⟨"renders", some .notRunning, []⟩ true =
      (⟨"renders", some .notRunning, []⟩, []) :=
  ⟨(cancel_render_behaviour ⟨"renders", some .running, []⟩ true).1 rfl rfl,
   (cancel_render_behaviour ⟨"renders", some .notRunning, []⟩ true).2.2 rfl⟩

/-! Helper lemmas on straight-line execution of the child body. -/

/-- The operations of an action list, in order. -/
def opsOf (l : List ChildAction) : List ChildOp :=
  l.filterMap fun a => match a with | .opA o _ => some o | _ => Option.none

theorem runActions_snd_none_iff (raises : ChildOp → Option String) :
    ∀ l : List ChildAction,
      (runActions raises l).2 = Option.none ↔ ∀ o ∈ opsOf l, raises o = Option.none := by
  intro l
  induction l with
  | nil => simp [runActions, opsOf]
  | cons a rest ih =>
      cases a with
      | opA o arg =>
          cases h : raises o with
          | none => simp [runActions, h, opsOf, List.filterMap_cons] at ih ⊢; exact ih
          | some m => simp [runActions, h, opsOf, List.filterMap_cons]
      | progressA n => simpa [runActions, opsOf, List.filterMap_cons] using ih
      | logA s => simpa [runActions, opsOf, List.filterMap_cons] using ih

theorem runActions_fst_pref (raises : ChildOp → Option String) :
    ∀ l : List ChildAction, (runActions raises l).1 <+: l := by
  intro l
  induction l with
  | nil => simp [runActions]
  | cons a rest ih =>
      cases a with
      | opA o arg =>
          cases h : raises o with
          | none => simpa [runActions, h] using ih
          | some m => simp [runActions, h]
      | progressA n => simpa [runActions] using ih
      | logA s => simpa [runActions] using ih

theorem runActions_fst_of_none (raises : ChildOp → Option String) :
    ∀ l : List ChildAction, (runActions raises l).2 = Option.none →
      (runActions raises l).1 = l := by
  intro l
  induction l with
  | nil => simp [runActions]
  | cons a rest ih =>
      cases a with
      | opA o arg =>
          cases h : raises o with
          | none => intro hn; simp [runActions, h] at hn ⊢; exact ih hn
          | some m => intro hn; simp [runActions, h] at hn
      | progressA n => intro hn; simp [runActions] at hn ⊢; exact ih hn
      | logA s => intro hn; simp [runActions] at hn ⊢; exact ih hn

theorem progressTrace_pref {l1 l2 : List ChildAction} (h : l1 <+: l2) :
    progressTrace l1 <+: progressTrace l2 := by
  obtain ⟨t, rfl⟩ := h
  rw [progressTrace, progressTrace, List.filterMap_append]
  exact List.prefix_append _ _

theorem opsOf_mainBody (params : PyVal) (outFile : String) :
    opsOf (mainBody params outFile) =
      [.importMitsuba, .loadSceneData, .setVariant, .preprocessScene,
       .loadScene, .renderScene, .saveImage, .cleanupTemp] := by
  simp [opsOf, mainBody]

theorem progressTrace_mainBody (params : PyVal) (outFile : String) :
    progressTrace (mainBody params outFile) = [5, 10, 20, 30, 80, 100] := by
  simp [progressTrace, mainBody]

/-- **C2** — Exit-code protocol.  The child exits 0 exactly when the argv
check passes and no operation (loading, rendering, saving, …) raises;
every failing exit is code 1 with an `ERROR:`-prefixed stderr line
(`ERROR:Invalid arguments` for a bad argv).  The parent's `_on_finished`
emits `render_complete` iff the exit code is 0 and the saved image opened,
and emits the exit-code `render_failed` message for every nonzero exit
code. -/
theorem exit_code_protocol (argv : List String) (params : PyVal) (outFile : String)
    (raises : ChildOp → Option String) (ec : Int) (path name : String)
    (openRes : Except String Unit) :
    ((childMain argv params outFile raises).exitCode = 0 ↔
       (argv.length = 3 ∧ ∀ o, raises o = Option.none)) ∧
    ((childMain argv params outFile raises).exitCode ≠ 0 →
       (childMain argv params outFile raises).exitCode = 1 ∧
       ∃ s, (childMain argv params outFile raises).stderrLine =
         some ("ERROR:" ++ s)) ∧
    (PEvent.renderCompleteSignal path ∈ onFinishedModel ec path name openRes ↔
       (ec = 0 ∧ openRes = .ok ())) ∧
    (ec ≠ 0 →
       PEvent.renderFailedSignal ("Render failed with exit code " ++ toString ec) ∈
         onFinishedModel ec path name openRes) := by
  have hops := runActions_snd_none_iff raises (mainBody params outFile)
  rw [opsOf_mainBody] at hops
  refine ⟨?_, ?_, ?_, ?_⟩
  · constructor
    · intro h
      by_cases ha : argv.length = 3
      · refine ⟨ha, ?_⟩
        simp only [childMain, ha] at h
        rcases hr : (runActions raises (mainBody params outFile)).2 with _ | m
        · intro o
          have := hops.1 hr
          cases o <;> simp_all
        · simp [hr] at h
      · simp [childMain, ha] at h
    · rintro ⟨ha, hnone⟩
      have : (runActions raises (mainBody params outFile)).2 = Option.none := by
        apply hops.2
        intro o _
        exact hnone o
      simp [childMain, ha, this]
  · intro h
    by_cases ha : argv.length = 3
    · rcases hr : (runActions raises (mainBody params outFile)).2 with _ | m
      · simp [childMain, ha, hr] at h
      · simp [childMain, ha, hr]
    · simp [childMain, ha]
      exact ⟨"Invalid arguments", rfl⟩
  · by_cases he : ec = 0
    · cases openRes with
      | ok u => simp [onFinishedModel, he]
      | error e => simp [onFinishedModel, he]
    · simp [onFinishedModel, he]
  · intro he
    simp [onFinishedModel, he]

/-- Witness for C2: a clean run exits 0; a run whose render raises exits 1
with an `ERROR:` line; `_on_finished` on exit code 0 with an openable image
emits `render_complete`, and on exit code 1 emits `render_failed`. -/
theorem exit_code_protocol_witness :
    (childMain ["render_subprocess.py", "scene.pkl", "out.png"] .nilD "out.png"
        (fun _ => Option.none)).exitCode = 0 ∧
    (childMain ["render_subprocess.py", "scene.pkl", "out.png"] .nilD "out.png"
        (fun o => if o = .renderScene then some "boom" else Option.none)).exitCode = 1 ∧
    PEvent.renderCompleteSignal "renders/out.png" ∈
      onFinishedModel 0 "renders/out.png" "out.png" (.ok ()) ∧
    PEvent.renderFailedSignal ("Render failed with exit code " ++ toString (1 : Int)) ∈
      onFinishedModel 1 "renders/out.png" "out.png" (.ok ()) := by
  refine ⟨?_, ?_, ?_, ?_⟩
  · exact (exit_code_protocol _ .nilD "out.png" _ 0 "p" "n" (.ok ())).1.2
      ⟨by decide, fun o => rfl⟩
  · refine ((exit_code_protocol _ .nilD "out.png"
      (fun o => if o = .renderScene then some "boom" else Option.none)
      0 "p" "n" (.ok ())).2.1 ?_).1
    intro h
    have := (exit_code_protocol ["render_subprocess.py", "scene.pkl", "out.png"]
      .nilD "out.png" (fun o => if o = .renderScene then some "boom" else Option.none)
      0 "p" "n" (.ok ())).1.1 h
    have hb := this.2 .renderScene
    simp at hb
  · exact ((exit_code_protocol ["x"] .nilD "out.png" (fun _ => Option.none)
      0 "renders/out.png" "out.png" (.ok ())).2.2.1).2 ⟨rfl, rfl⟩
  · exact (exit_code_protocol ["x"] .nilD "out.png" (fun _ => Option.none)
      1 "renders/out.png" "out.png" (.ok ())).2.2.2 (by decide)

/-- **C10** — Progress protocol of the child.  A run of `main` that exits
with code 0 prints exactly the `PROGRESS:` values 5, 10, 20, 30, 80, 100;
this sequence is strictly increasing, all values lie in [0, 100], and it
ends at 100.  Every run (failing runs included) prints a prefix of that
sequence, and in particular the printed progress values are strictly
increasing in every execution — progress never decreases. -/
theorem progress_sequence (argv : List String) (params : PyVal) (outFile : String)
    (raises : ChildOp → Option String) :
    ((childMain argv params outFile raises).exitCode = 0 →
       childProgressTrace params outFile raises = [5, 10, 20, 30, 80, 100]) ∧
    childProgressTrace params outFile raises <+: [5, 10, 20, 30, 80, 100] ∧
    (childProgressTrace params outFile raises).Pairwise (· < ·) ∧
    (∀ n ∈ childProgressTrace params outFile raises, n ≤ 100) ∧
    List.getLast? [5, 10, 20, 30, 80, 100] = some 100 := by
  have hpre : childProgressTrace params outFile raises <+: [5, 10, 20, 30, 80, 100] := by
    rw [childProgressTrace, ← progressTrace_mainBody params outFile]
    exact progressTrace_pref (runActions_fst_pref raises (mainBody params outFile))
  refine ⟨?_, hpre, ?_, ?_, rfl⟩
  · intro h
    by_cases ha : argv.length = 3
    · rcases hr : (runActions raises (mainBody params outFile)).2 with _ | m
      · rw [childProgressTrace, runActions_fst_of_none raises _ hr,
          progressTrace_mainBody]
      · simp [childMain, ha, hr] at h
    · simp [childMain, ha] at h
  · have hsorted : ([5, 10, 20, 30, 80, 100] : List Nat).Pairwise (· < ·) := by decide
    exact hsorted.sublist hpre.sublist
  · intro n hn
    have : n ∈ [5, 10, 20, 30, 80, 100] := hpre.sublist.mem hn
    -- interval_cases would be overkill; just enumerate
    simp at this
    rcases this with h | h | h | h | h | h <;> omega

/-- Witness for C10: a clean run prints exactly 5, 10, 20, 30, 80, 100,
and a run failing at `mi.render` prints the prefix 5, 10, 20, 30. -/
theorem progress_sequence_witness :
    childProgressTrace .nilD "out.png" (fun _ => Option.none) = [5, 10, 20, 30, 80, 100] ∧
    childProgressTrace .nilD "out.png"
        (fun o => if o = .renderScene then some "boom" else Option.none) <+:
      [5, 10, 20, 30, 80, 100] := by
  constructor
  · exact (progress_sequence ["a", "b", "c"] .nilD "out.png" (fun _ => Option.none)).1
      (by rfl)
  · exact (progress_sequence ["a", "b", "c"] .nilD "out.png"
      (fun o => if o = .renderScene then some "boom" else Option.none)).2.1

/-- A line starting with `LOG:` does not start with `PROGRESS:`. -/
theorem not_progress_of_log {line : List Char}
    (h : "LOG:".toList.isPrefixOf line = true) :
    "PROGRESS:".toList.isPrefixOf line = false := by
  have hl : "LOG:".toList = ['L', 'O', 'G', ':'] := rfl
  have hp : "PROGRESS:".toList = ['P', 'R', 'O', 'G', 'R', 'E', 'S', 'S', ':'] := rfl
  rw [hl] at h
  rw [hp]
  cases line with
  | nil => simp [List.isPrefixOf] at h
  | cons c cs =>
      simp only [List.isPrefixOf, Bool.and_eq_true, beq_iff_eq] at h
      obtain ⟨hc, -⟩ := h
      subst hc
      simp [List.isPrefixOf]

/-- **C1** — Stdout line classification in `SubprocessRenderer._on_stdout`:
after ANSI stripping, a (non-empty) line starting with `PROGRESS:` whose
first colon-separated payload parses as a Python integer emits
`progress_updated` with that integer; a line starting with `LOG:` emits
`log_message` with the remainder after the 4-character tag, stripped; and
every other line (including a `PROGRESS:` line with an unparsable payload,
swallowed by the bare `except`) emits neither signal.  The whole-chunk
handler `onStdoutEmits` applies this classification to every non-empty
line of the stripped chunk. -/
theorem stdout_line_classification (line : List Char) (data : List Char) :
    ("PROGRESS:".toList.isPrefixOf line = true →
       (∀ n, pyInt ((splitOnChar ':' line).getD 1 []) = some n →
          classifyLine line = some (.progressUpdated n)) ∧
       (pyInt ((splitOnChar ':' line).getD 1 []) = Option.none →
          classifyLine line = Option.none)) ∧
    ("LOG:".toList.isPrefixOf line = true →
       classifyLine line = some (.logMessage (pyStrip (line.drop 4)))) ∧
    ("PROGRESS:".toList.isPrefixOf line = false →
       "LOG:".toList.isPrefixOf line = false →
       classifyLine line = Option.none) ∧
    onStdoutEmits data =
      ((splitOnChar '\n' (pyStrip data)).filter (fun l => l ≠ [])).filterMap
        classifyLine := by
  refine ⟨fun hp => ⟨fun n hn => ?_, fun hn => ?_⟩, fun hl => ?_, fun hp hl => ?_, rfl⟩
  · have hp' : (['P', 'R', 'O', 'G', 'R', 'E', 'S', 'S', ':'] <+: line) :=
      List.isPrefixOf_iff_prefix.mp hp
    simp only [List.getD, List.get?_eq_getElem?] at hn
    simp [classifyLine, hp', hn]
  · have hp' : (['P', 'R', 'O', 'G', 'R', 'E', 'S', 'S', ':'] <+: line) :=
      List.isPrefixOf_iff_prefix.mp hp
    simp only [List.getD, List.get?_eq_getElem?] at hn
    simp [classifyLine, hp', hn]
  · have hploc : (['P', 'R', 'O', 'G', 'R', 'E', 'S', 'S', ':'].isPrefixOf line) = false :=
      not_progress_of_log hl
    have hp' : ¬ (['P', 'R', 'O', 'G', 'R', 'E', 'S', 'S', ':'] <+: line) := by
      intro hc
      rw [← List.isPrefixOf_iff_prefix, hploc] at hc
      exact Bool.noConfusion hc
    have hl' : (['L', 'O', 'G', ':'] <+: line) := List.isPrefixOf_iff_prefix.mp hl
    simp [classifyLine, hp', hl']
  · have hp0 : (['P', 'R', 'O', 'G', 'R', 'E', 'S', 'S', ':'].isPrefixOf line) = false := hp
    have hl0 : (['L', 'O', 'G', ':'].isPrefixOf line) = false := hl
    have hp' : ¬ (['P', 'R', 'O', 'G', 'R', 'E', 'S', 'S', ':'] <+: line) := by
      intro hc
      rw [← List.isPrefixOf_iff_prefix, hp0] at hc
      exact Bool.noConfusion hc
    have hl' : ¬ (['L', 'O', 'G', ':'] <+: line) := by
      intro hc
      rw [← List.isPrefixOf_iff_prefix, hl0] at hc
      exact Bool.noConfusion hc
    simp [classifyLine, hp', hl']

/-- Witness for C1: a parsable `PROGRESS:` line, an unparsable one, a
`LOG:` line, and an unrelated line, classified concretely. -/
theorem stdout_line_classification_witness :
    classifyLine "PROGRESS:42".toList = some (.progressUpdated 42) ∧
    classifyLine "PROGRESS:abc".toList = Option.none ∧
    classifyLine "LOG:[12:00:00] hello ".toList =
      some (.logMessage "[12:00:00] hello".toList) ∧
    classifyLine "jit_llvm something".toList = Option.none := by
  refine ⟨((stdout_line_classification "PROGRESS:42".toList []).1 (by decide)).1
    42 (by decide), ?_, ?_, ?_⟩
  · exact ((stdout_line_classification "PROGRESS:abc".toList []).1 (by decide)).2
      (by decide)
  · have := (stdout_line_classification "LOG:[12:00:00] hello ".toList []).2.1
      (by decide)
    rw [this]
    decide
  · exact (stdout_line_classification "jit_llvm something".toList []).2.2.1
      (by decide) (by decide)

/-- **C7** — `BasicSceneGenerator.generate` is a pure data-only function
(the embedding is a pure function of `params`; the Python body only reads
`params.get(…)` and builds fresh dicts, so it has no side effects and
leaves `params` unmodified): its result has top-level `'type' = 'scene'`
and `integrator`, `sensor`, `sphere`, `ground`, `light` entries, and the
sphere's BSDF follows `material_type`: `'diffuse'` → a diffuse BSDF
carrying `material_color`; `'conductor'` → a roughconductor BSDF with
`alpha` equal to the `roughness` parameter; `'dielectric'` → a dielectric
BSDF; anything else → a plastic BSDF carrying `material_color`. -/
theorem basic_scene_structure (params : PyVal) :
    findKey "type" (basicSceneGenerate params) = some (.str "scene") ∧
    (pyMem (basicSceneGenerate params) "integrator" &&
     pyMem (basicSceneGenerate params) "sensor" &&
     pyMem (basicSceneGenerate params) "sphere" &&
     pyMem (basicSceneGenerate params) "ground" &&
     pyMem (basicSceneGenerate params) "light") = true ∧
    (pyGet params "material_type" (.str "diffuse") = .str "diffuse" →
       (findKey "sphere" (basicSceneGenerate params)).bind (findKey "bsdf") =
         some (ofDict
           [("type", .str "diffuse"),
            ("reflectance",
             ofDict [("type", .str "rgb"),
                     ("value", pyGet params "material_color"
                       (ofList [.rat (4/5), .rat (1/5), .rat (1/5)]))])])) ∧
    (pyGet params "material_type" (.str "diffuse") = .str "conductor" →
       (findKey "sphere" (basicSceneGenerate params)).bind (findKey "bsdf") =
         some (ofDict
           [("type", .str "roughconductor"),
            ("material", .str "Cu"),
            ("alpha", pyGet params "roughness" (.rat (1/10)))])) ∧
    (pyGet params "material_type" (.str "diffuse") = .str "dielectric" →
       (findKey "sphere" (basicSceneGenerate params)).bind (findKey "bsdf") =
         some (ofDict
           [("type", .str "dielectric"),
            ("int_ior", .rat (3/2)),
            ("ext_ior", .rat 1)])) ∧
    (pyGet params "material_type" (.str "diffuse") ≠ .str "diffuse" →
     pyGet params "material_type" (.str "diffuse") ≠ .str "conductor" →
     pyGet params "material_type" (.str "diffuse") ≠ .str "dielectric" →
       (findKey "sphere" (basicSceneGenerate params)).bind (findKey "bsdf") =
         some (ofDict
           [("type", .str "plastic"),
            ("diffuse_reflectance",
             ofDict [("type", .str "rgb"),
                     ("value", pyGet params "material_color"
                       (ofList [.rat (4/5), .rat (1/5), .rat (1/5)]))]),
            ("nonlinear", .bool true)])) := by
  refine ⟨?_, ?_, fun h1 => ?_, fun h2 => ?_, fun h3 => ?_, fun h1 h2 h3 => ?_⟩
  · simp [basicSceneGenerate, ofDict, findKey]
  · simp [basicSceneGenerate, ofDict, pyMem, findKey]
  · simp [basicSceneGenerate, ofDict, findKey, h1]
  · simp [basicSceneGenerate, ofDict, findKey, h2]
  · simp [basicSceneGenerate, ofDict, findKey, h3]
  · simp [basicSceneGenerate, ofDict, findKey, h1, h2, h3]

/-- Witness for C7: the conductor branch at a concrete params dict. -/
theorem basic_scene_structure_witness :
    (findKey "sphere" (basicSceneGenerate
        (ofDict [("material_type", .str "conductor"), ("roughness", .rat (1/4))]))).bind
      (findKey "bsdf") =
      some (ofDict
        [("type", .str "roughconductor"),
         ("material", .str "Cu"),
         ("alpha", .rat (1/4))]) := by
  have := (basic_scene_structure
    (ofDict [("material_type", .str "conductor"), ("roughness", .rat (1/4))])).2.2.2.1
    (by decide)
  rw [this]
  simp [pyGet, findKey, ofDict]

/-- Whatever `_build_transform` returns is a built transform object. -/
theorem isTransform_buildTransformS (d : PyVal) :
    (buildTransformS d).isTransform = true := by
  rw [buildTransformS]
  split
  · rfl
  · split
    · rfl
    · split
      · rfl
      · split
        · cases hnum : (pyGet d "value" (.rat 1)).isNum <;> simp [hnum, isTransform]
        · split <;> rfl

/-- Whatever `_build_transform_from_dict` returns is a built transform
object. -/
theorem isTransform_buildTransformR (d : PyVal) :
    (buildTransformR d).isTransform = true := by
  rw [buildTransformR]
  split
  · rfl
  · split
    · rfl
    · split
      · cases hnum : (pyGet d "value" (.rat 1)).isNum <;> simp [hnum, isTransform]
      · split <;> rfl

/-- Whatever the matrix conversion returns is a built transform object. -/
theorem isTransform_convertMatrix (v : PyVal) :
    (convertMatrix v).isTransform = true := by
  rw [convertMatrix.eq_def]
  split
  · split <;> rfl
  · rfl

/-- Whatever the `to_world` conversion returns on a list or dict input is
a built transform object (render_subprocess.py side). -/
theorem isTransform_convertToWorldS {v : PyVal}
    (h : v.isList = true ∨ v.isDict = true) :
    (convertToWorldS v).isTransform = true := by
  rw [convertToWorldS]
  split
  · exact isTransform_convertMatrix v
  · split
    · exact isTransform_buildTransformS v
    · rcases h with h | h <;> simp_all

/-- Whatever the `to_world` conversion returns on a list or dict input is
a built transform object (renderer.py side). -/
theorem isTransform_convertToWorldR {v : PyVal}
    (h : v.isList = true ∨ v.isDict = true) :
    (convertToWorldR v).isTransform = true := by
  rw [convertToWorldR]
  split
  · exact isTransform_convertMatrix v
  · split
    · exact isTransform_buildTransformR v
    · rcases h with h | h <;> simp_all

/-- **C9** — Frame condition of the transform preprocessing.  The Python
`preprocess_transforms` deep-copies its argument before any mutation, so
the caller's dictionary is unchanged; the embedding is accordingly the
pure function `preprocessS`, and this theorem states the remaining
content: for every value `d`, the result differs from `d` exactly by
replacing each value stored under a `'to_world'` key that is a list or a
dict with a built transform object, leaving every other entry (including
entries nested below other keys, up to the same replacement inside them)
structurally equal.  The same holds for the renderer.py twin. -/
theorem preprocess_frame_condition (d : PyVal) :
    frameEq d (preprocessS d) = true ∧ frameEq d (preprocessR d) = true := by
  induction d with
  | consD k v rest ihv ihr =>
      constructor
      · rw [preprocessS.eq_def, frameEq.eq_def]
        by_cases hk : k = "to_world"
        · simp only [hk, if_pos rfl, ite_true]
          simp only [Bool.and_eq_true, decide_eq_true_eq]
          refine ⟨⟨trivial, ?_⟩, ihr.1⟩
          by_cases hld : v.isList = true ∨ v.isDict = true
          · rw [if_pos (by rcases hld with h | h <;> simp [h])]
            exact isTransform_convertToWorldS hld
          · push_neg at hld
            rw [if_neg (by simp [hld.1, hld.2]), convertToWorldS,
              if_neg (by simp [hld.1]), if_neg (by simp [hld.2])]
            simp
        · simp only [hk, if_neg hk, ite_false]
          simp [ihv.1, ihr.1]
      · rw [preprocessR.eq_def, frameEq.eq_def]
        by_cases hk : k = "to_world"
        · simp only [hk, if_pos rfl, ite_true]
          simp only [Bool.and_eq_true, decide_eq_true_eq]
          refine ⟨⟨trivial, ?_⟩, ihr.2⟩
          by_cases hld : v.isList = true ∨ v.isDict = true
          · rw [if_pos (by rcases hld with h | h <;> simp [h])]
            exact isTransform_convertToWorldR hld
          · push_neg at hld
            rw [if_neg (by simp [hld.1, hld.2]), convertToWorldR,
              if_neg (by simp [hld.1]), if_neg (by simp [hld.2])]
            simp
        · simp only [hk, if_neg hk, ite_false]
          simp [ihv.2, ihr.2]
  | consV hd tl ihh iht =>
      constructor
      · rw [preprocessS.eq_def, frameEq.eq_def]
        simp [ihh.1, iht.1]
      · rw [preprocessR.eq_def, frameEq.eq_def]
        simp [ihh.2, iht.2]
  | nilD => exact ⟨rfl, rfl⟩
  | nilV => exact ⟨rfl, rfl⟩
  | pyNone => exact ⟨by simp [preprocessS, frameEq], by simp [preprocessR, frameEq]⟩
  | int n => exact ⟨by simp [preprocessS, frameEq], by simp [preprocessR, frameEq]⟩
  | rat q => exact ⟨by simp [preprocessS, frameEq], by simp [preprocessR, frameEq]⟩
  | str s => exact ⟨by simp [preprocessS, frameEq], by simp [preprocessR, frameEq]⟩
  | bool b => exact ⟨by simp [preprocessS, frameEq], by simp [preprocessR, frameEq]⟩
  | transMat2D v ih =>
      exact ⟨by simp [preprocessS, frameEq], by simp [preprocessR, frameEq]⟩
  | transMatFlat v ih =>
      exact ⟨by simp [preprocessS, frameEq], by simp [preprocessR, frameEq]⟩
  | transLookAt o t u iho iht ihu =>
      exact ⟨by simp [preprocessS, frameEq], by simp [preprocessR, frameEq]⟩
  | transTranslate v ih =>
      exact ⟨by simp [preprocessS, frameEq], by simp [preprocessR, frameEq]⟩
  | transScale v ih =>
      exact ⟨by simp [preprocessS, frameEq], by simp [preprocessR, frameEq]⟩
  | transRotate a b iha ihb =>
      exact ⟨by simp [preprocessS, frameEq], by simp [preprocessR, frameEq]⟩
  | transIdentity =>
      exact ⟨by simp [preprocessS, frameEq], by simp [preprocessR, frameEq]⟩
  | transCompose a b iha ihb =>
      exact ⟨by simp [preprocessS, frameEq], by simp [preprocessR, frameEq]⟩

/-- `noLookAt` is hereditary: every value found under a key inside a
`noLookAt` value is itself `noLookAt`. -/
theorem noLookAt_findKey {key : String} :
    ∀ {d c : PyVal}, noLookAt d = true → findKey key d = some c →
      noLookAt c = true := by
  intro d
  induction d with
  | consD k v rest ihv ihr =>
      intro c hno hf
      rw [noLookAt] at hno
      simp only [Bool.and_eq_true] at hno
      rw [findKey] at hf
      by_cases hk : k = key
      · simp only [hk, if_pos rfl] at hf
        cases hf
        exact hno.1.2
      · simp only [if_neg hk] at hf
        exact ihr hno.2 hf
  | _ => intro c hno hf <;> simp [findKey] at hf

/-- In a `noLookAt` value, no `"type"` entry holds the string
`"look_at"`. -/
theorem findKey_type_not_lookAt :
    ∀ {d c : PyVal}, noLookAt d = true → findKey "type" d = some c →
      ¬ (c = PyVal.str "look_at") := by
  intro d
  induction d with
  | consD k v rest ihv ihr =>
      intro c hno hf
      rw [noLookAt] at hno
      simp only [Bool.and_eq_true] at hno
      rw [findKey] at hf
      by_cases hk : k = "type"
      · simp only [hk, if_pos rfl] at hf
        cases hf
        intro hc
        subst hk
        simp [hc] at hno
      · simp only [if_neg hk] at hf
        exact ihr hno.2 hf
  | _ => intro c hno hf <;> simp [findKey] at hf

/-- In a `noLookAt` transform dictionary, the dispatched transform type is
never `'look_at'`. -/
theorem pyGet_type_not_lookAt {d : PyVal} (hno : noLookAt d = true) :
    ¬ (pyGet d "type" (.str "identity") = PyVal.str "look_at") := by
  rw [pyGet]
  cases hf : findKey "type" d with
  | none => simp
  | some c => simpa using findKey_type_not_lookAt hno hf

/-- On `noLookAt` inputs the two transform builders agree. -/
theorem buildTransform_equiv :
    ∀ d : PyVal, noLookAt d = true → buildTransformR d = buildTransformS d := by
  intro d
  induction d using buildTransformS.induct with
  | case1 d c hc ih =>
      intro hno
      have hlook := pyGet_type_not_lookAt hno
      have ih' := ih (noLookAt_findKey hno hc)
      rw [buildTransformR, buildTransformS]
      simp only [if_neg hlook]
      split <;> split <;> first | rfl | simp_all
  | case2 d hc =>
      intro hno
      have hlook := pyGet_type_not_lookAt hno
      rw [buildTransformR, buildTransformS]
      simp only [if_neg hlook]
      split <;> split <;> first | rfl | simp_all

/-- On `noLookAt` inputs the two `to_world` conversions agree. -/
theorem convertToWorld_equiv (v : PyVal) (hno : noLookAt v = true) :
    convertToWorldR v = convertToWorldS v := by
  rw [convertToWorldR, convertToWorldS]
  by_cases hl : v.isList = true
  · simp [hl]
  · by_cases hd : v.isDict = true
    · simp [hl, hd, buildTransform_equiv v hno]
    · simp [hl, hd]

/-- **C8 (amended)** — The two transform-preprocessing implementations
agree on every scene dictionary that contains no `look_at` transform:
whenever no dictionary entry anywhere in `d` maps `"type"` to
`"look_at"`, `RenderWorker._preprocess_scene_dict` (renderer.py) and
`preprocess_transforms` (render_subprocess.py) produce the same result —
both map `to_world` matrices and transform dictionaries to the same
transform, composing a parent transform with its `'child'` as
parent-after-child.  (On `look_at` transforms they differ — see the
counterexample theorem — because only render_subprocess.py has a
`look_at` branch.) -/
theorem preprocess_equiv_no_lookAt :
    ∀ d : PyVal, noLookAt d = true → preprocessR d = preprocessS d := by
  intro d
  induction d with
  | consD k v rest ihv ihr =>
      intro hno
      rw [noLookAt] at hno
      simp only [Bool.and_eq_true] at hno
      rw [preprocessR.eq_def, preprocessS.eq_def]
      dsimp only
      by_cases hk : k = "to_world"
      · simp only [hk, if_pos rfl, ite_true]
        rw [convertToWorld_equiv v hno.1.2, ihr hno.2]
      · simp only [if_neg hk, ite_false]
        rw [ihv hno.1.2, ihr hno.2]
  | consV hd tl ihh iht =>
      intro hno
      rw [noLookAt] at hno
      simp only [Bool.and_eq_true] at hno
      rw [preprocessR.eq_def, preprocessS.eq_def]
      dsimp only
      rw [ihh hno.1, iht hno.2]
  | nilD => intro _; rfl
  | nilV => intro _; rfl
  | pyNone => intro _; rfl
  | int n => intro _; rfl
  | rat q => intro _; rfl
  | str s => intro _; rfl
  | bool b => intro _; rfl
  | transMat2D v ih => intro _; rfl
  | transMatFlat v ih => intro _; rfl
  | transLookAt o t u iho iht ihu => intro _; rfl
  | transTranslate v ih => intro _; rfl
  | transScale v ih => intro _; rfl
  | transRotate a b iha ihb => intro _; rfl
  | transIdentity => intro _; rfl
  | transCompose a b iha ihb => intro _; rfl

/-- Witness for C8 (amended) at a concrete `look_at`-free scene: a ground
plane with a translate-over-scale `to_world`, as `basic_scene.py` builds
for the ground. -/
theorem preprocess_equiv_no_lookAt_witness :
    noLookAt (ofDict
      [("ground",
        ofDict
          [("type", .str "rectangle"),
           ("to_world",
            ofDict [("type", .str "translate"),
                    ("value", ofList [.int 0, .int 0, .int (-1)]),
                    ("child", ofDict [("type", .str "scale"), ("value", .int 20)])])])]) =
      true ∧
    preprocessR (ofDict
      [("ground",
        ofDict
          [("type", .str "rectangle"),
           ("to_world",
            ofDict [("type", .str "translate"),
                    ("value", ofList [.int 0, .int 0, .int (-1)]),
                    ("child", ofDict [("type", .str "scale"), ("value", .int 20)])])])]) =
      preprocessS (ofDict
      [("ground",
        ofDict
          [("type", .str "rectangle"),
           ("to_world",
            ofDict [("type", .str "translate"),
                    ("value", ofList [.int 0, .int 0, .int (-1)]),
                    ("child", ofDict [("type", .str "scale"), ("value", .int 20)])])])]) :=
  ⟨by decide, preprocess_equiv_no_lookAt _ (by decide)⟩

/-- The renderer.py builder maps the basic-scene camera's `look_at` dict
to the identity transform (no `look_at` branch). -/
theorem buildTransformR_lookAt_dict :
    buildTransformR (PyVal.consD "type" (.str "look_at")
      (PyVal.consD "origin" (ofList [.int 0, .int 0, .int 5])
        (PyVal.consD "target" vzero
          (PyVal.consD "up" (ofList [.int 0, .int 1, .int 0]) .nilD)))) =
      .transIdentity := by
  rw [buildTransformR]
  simp [pyGet, findKey, ofDict, ofList]

/-- The render_subprocess.py builder maps the same `look_at` dict to a
look-at transform. -/
theorem buildTransformS_lookAt_dict :
    buildTransformS (PyVal.consD "type" (.str "look_at")
      (PyVal.consD "origin" (ofList [.int 0, .int 0, .int 5])
        (PyVal.consD "target" vzero
          (PyVal.consD "up" (ofList [.int 0, .int 1, .int 0]) .nilD)))) =
      .transLookAt (ofList [.int 0, .int 0, .int 5]) vzero
        (ofList [.int 0, .int 1, .int 0]) := by
  rw [buildTransformS]
  simp [pyGet, findKey, ofDict, ofList]

/-- **C8 (counterexample)** — The two transform-preprocessing
implementations are NOT equivalent.  On a scene whose sensor `to_world`
is a `look_at` transform dictionary (exactly what
`BasicSceneGenerator.generate` emits), renderer.py produces the identity
transform while render_subprocess.py produces the look-at transform; the
two results differ, and semantically so: the camera ends up translated to
`(0, 0, 5)` under render_subprocess.py but left at the origin `(0, 0, 0)`
under renderer.py. -/
theorem preprocess_divergence_cex :
    (findKey "sensor" (preprocessR lookAtSensorDict)).bind (findKey "to_world") =
      some PyVal.transIdentity ∧
    (findKey "sensor" (preprocessS lookAtSensorDict)).bind (findKey "to_world") =
      some (PyVal.transLookAt (ofList [.int 0, .int 0, .int 5]) vzero
        (ofList [.int 0, .int 1, .int 0])) ∧
    preprocessR lookAtSensorDict ≠ preprocessS lookAtSensorDict ∧
    transTranslation PyVal.transIdentity = some (0, 0, 0) ∧
    transTranslation (PyVal.transLookAt (ofList [.int 0, .int 0, .int 5]) vzero
      (ofList [.int 0, .int 1, .int 0])) = some (0, 0, 5) := by
  have h1 : (findKey "sensor" (preprocessR lookAtSensorDict)).bind (findKey "to_world") =
      some PyVal.transIdentity := by
    simp [lookAtSensorDict, ofDict, preprocessR.eq_def, convertToWorldR,
      isList, isDict, findKey, buildTransformR_lookAt_dict]
  have h2 : (findKey "sensor" (preprocessS lookAtSensorDict)).bind (findKey "to_world") =
      some (PyVal.transLookAt (ofList [.int 0, .int 0, .int 5]) vzero
        (ofList [.int 0, .int 1, .int 0])) := by
    simp [lookAtSensorDict, ofDict, preprocessS.eq_def, convertToWorldS,
      isList, isDict, findKey, buildTransformS_lookAt_dict]
  refine ⟨h1, h2, ?_, rfl, ?_⟩
  · intro h
    rw [h, h2] at h1
    simp [vzero, ofList] at h1
  · norm_num [transTranslation, toTriple, ofList]

theorem pdepth_pos (v : PyVal) : 0 < pdepth v := by
  cases v <;> simp [pdepth]

theorem pdepth_le_length (v : PyVal) : pdepth v ≤ (pickleDumps v).length := by
  induction v with
  | consV h t ih1 ih2 =>
      simp only [pdepth, pickleDumps, List.length_cons, List.length_append]
      have h3 : max (pdepth h) (pdepth t) ≤
          (pickleDumps h).length + (pickleDumps t).length :=
        Nat.max_le.mpr ⟨le_trans ih1 (Nat.le_add_right _ _),
          le_trans ih2 (Nat.le_add_left _ _)⟩
      omega
  | consD k v r ih1 ih2 =>
      simp only [pdepth, pickleDumps, List.length_cons, List.length_append]
      have h3 : max (pdepth v) (pdepth r) ≤
          (pickleDumps v).length + (pickleDumps r).length :=
        Nat.max_le.mpr ⟨le_trans ih1 (Nat.le_add_right _ _),
          le_trans ih2 (Nat.le_add_left _ _)⟩
      omega
  | transMat2D v ih =>
      simp only [pdepth, pickleDumps, List.length_cons]
      omega
  | transMatFlat v ih =>
      simp only [pdepth, pickleDumps, List.length_cons]
      omega
  | transLookAt o t u iho iht ihu =>
      simp only [pdepth, pickleDumps, List.length_cons, List.length_append]
      have h3 : max (pdepth t) (pdepth u) ≤
          (pickleDumps t).length + (pickleDumps u).length :=
        Nat.max_le.mpr ⟨le_trans iht (Nat.le_add_right _ _),
          le_trans ihu (Nat.le_add_left _ _)⟩
      have h4 : max (pdepth o) (max (pdepth t) (pdepth u)) ≤
          (pickleDumps o).length +
            ((pickleDumps t).length + (pickleDumps u).length) :=
        Nat.max_le.mpr ⟨le_trans iho (Nat.le_add_right _ _),
          le_trans h3 (Nat.le_add_left _ _)⟩
      omega
  | transTranslate v ih =>
      simp only [pdepth, pickleDumps, List.length_cons]
      omega
  | transScale v ih =>
      simp only [pdepth, pickleDumps, List.length_cons]
      omega
  | transRotate a b iha ihb =>
      simp only [pdepth, pickleDumps, List.length_cons, List.length_append]
      have h3 : max (pdepth a) (pdepth b) ≤
          (pickleDumps a).length + (pickleDumps b).length :=
        Nat.max_le.mpr ⟨le_trans iha (Nat.le_add_right _ _),
          le_trans ihb (Nat.le_add_left _ _)⟩
      omega
  | transCompose a b iha ihb =>
      simp only [pdepth, pickleDumps, List.length_cons, List.length_append]
      have h3 : max (pdepth a) (pdepth b) ≤
          (pickleDumps a).length + (pickleDumps b).length :=
        Nat.max_le.mpr ⟨le_trans iha (Nat.le_add_right _ _),
          le_trans ihb (Nat.le_add_left _ _)⟩
      omega
  | _ => simp [pdepth, pickleDumps]

/-- Prefix decoding inverts encoding, given enough fuel. -/
theorem pickleDec_dumps :
    ∀ (v : PyVal) (fuel : Nat) (rest : List PTok), pdepth v ≤ fuel →
      pickleDec fuel (pickleDumps v ++ rest) = some (v, rest) := by
  intro v
  induction v with
  | consV h t ih1 ih2 =>
      intro fuel rest hf
      rw [pdepth] at hf
      cases fuel with
      | zero => omega
      | succ f =>
          have hm : max (pdepth h) (pdepth t) ≤ f := by omega
          obtain ⟨hh, ht⟩ := Nat.max_le.mp hm
          simp [pickleDumps, pickleDec, List.append_assoc,
            ih1 f (pickleDumps t ++ rest) hh, ih2 f rest ht]
  | consD k v r ih1 ih2 =>
      intro fuel rest hf
      rw [pdepth] at hf
      cases fuel with
      | zero => omega
      | succ f =>
          have hm : max (pdepth v) (pdepth r) ≤ f := by omega
          obtain ⟨hv, hr⟩ := Nat.max_le.mp hm
          simp [pickleDumps, pickleDec, List.append_assoc,
            ih1 f (pickleDumps r ++ rest) hv, ih2 f rest hr]
  | transMat2D v ih =>
      intro fuel rest hf
      rw [pdepth] at hf
      cases fuel with
      | zero => omega
      | succ f =>
          simp [pickleDumps, pickleDec, ih f rest (by omega)]
  | transMatFlat v ih =>
      intro fuel rest hf
      rw [pdepth] at hf
      cases fuel with
      | zero => omega
      | succ f =>
          simp [pickleDumps, pickleDec, ih f rest (by omega)]
  | transLookAt o t u iho iht ihu =>
      intro fuel rest hf
      rw [pdepth] at hf
      cases fuel with
      | zero => omega
      | succ f =>
          have hm : max (pdepth o) (max (pdepth t) (pdepth u)) ≤ f := by omega
          obtain ⟨ho, hm2⟩ := Nat.max_le.mp hm
          obtain ⟨ht, hu⟩ := Nat.max_le.mp hm2
          simp [pickleDumps, pickleDec, List.append_assoc,
            iho f (pickleDumps t ++ (pickleDumps u ++ rest)) ho,
            iht f (pickleDumps u ++ rest) ht, ihu f rest hu]
  | transTranslate v ih =>
      intro fuel rest hf
      rw [pdepth] at hf
      cases fuel with
      | zero => omega
      | succ f =>
          simp [pickleDumps, pickleDec, ih f rest (by omega)]
  | transScale v ih =>
      intro fuel rest hf
      rw [pdepth] at hf
      cases fuel with
      | zero => omega
      | succ f =>
          simp [pickleDumps, pickleDec, ih f rest (by omega)]
  | transRotate a b iha ihb =>
      intro fuel rest hf
      rw [pdepth] at hf
      cases fuel with
      | zero => omega
      | succ f =>
          have hm : max (pdepth a) (pdepth b) ≤ f := by omega
          obtain ⟨ha, hb⟩ := Nat.max_le.mp hm
          simp [pickleDumps, pickleDec, List.append_assoc,
            iha f (pickleDumps b ++ rest) ha, ihb f rest hb]
  | transCompose a b iha ihb =>
      intro fuel rest hf
      rw [pdepth] at hf
      cases fuel with
      | zero => omega
      | succ f =>
          have hm : max (pdepth a) (pdepth b) ≤ f := by omega
          obtain ⟨ha, hb⟩ := Nat.max_le.mp hm
          simp [pickleDumps, pickleDec, List.append_assoc,
            iha f (pickleDumps b ++ rest) ha, ihb f rest hb]
  | _ =>
      intro fuel rest hf
      cases fuel with
      | zero => exact absurd (lt_of_lt_of_le (pdepth_pos _) hf) (lt_irrefl 0)
      | succ f => simp [pickleDumps, pickleDec]

/-- The modelled pickle roundtrip is the identity. -/
theorem pickleLoads_dumps (v : PyVal) : pickleLoads (pickleDumps v) = some v := by
  rw [pickleLoads]
  have h : pickleDec ((pickleDumps v).length + 1) (pickleDumps v ++ []) =
      some (v, []) :=
    pickleDec_dumps v _ [] (le_trans (pdepth_le_length v) (Nat.le_succ _))
  rw [List.append_nil] at h
  rw [h]

/-- **C4** — Serialization boundary of `render_scene`.  When no render is
in progress, `render_scene` writes to the fresh temp file exactly the
pickle of the pair `{'scene_dict': scene_dict, 'params': params}` (its
first effect), records the temp file, and starts the child with the
temp-file name and `output_dir / output_filename` as its two command-line
arguments; and the child's `pickle.load` followed by the
`data['scene_dict']` / `data['params']` lookups recovers exactly the
`scene_dict` and `params` that were passed to `render_scene`
(serialize-then-deserialize is the identity on the pair). -/
theorem render_scene_serialization (st : SubRendererState) (sceneDict params : PyVal)
    (ofn tmp py spath : String) (startOk : Bool)
    (hidle : processRunning st.process = false) :
    ((renderSceneModel st sceneDict params ofn tmp py spath startOk).2.head? =
       some (.writeTempFile tmp
         (pickleDumps (ofDict [("scene_dict", sceneDict), ("params", params)])))) ∧
    (PEvent.startProcess py [spath, tmp, st.outputDir ++ "/" ++ ofn] ∈
       (renderSceneModel st sceneDict params ofn tmp py spath startOk).2) ∧
    (renderSceneModel st sceneDict params ofn tmp py spath startOk).1.tempFiles =
      st.tempFiles ++ [tmp] ∧
    childLoadData
        (pickleDumps (ofDict [("scene_dict", sceneDict), ("params", params)])) =
      some (sceneDict, params) := by
  refine ⟨?_, ?_, ?_, ?_⟩
  · cases startOk <;> simp [renderSceneModel, hidle]
  · cases startOk <;> simp [renderSceneModel, hidle]
  · cases startOk <;> simp [renderSceneModel, hidle]
  · rw [childLoadData, pickleLoads_dumps]
    simp [ofDict, findKey]

/-- Witness for C4 at a concrete idle state and payload. -/
theorem render_scene_serialization_witness :
    childLoadData (pickleDumps (ofDict
      [("scene_dict", ofDict [("type", .str "scene")]),
       ("params", ofDict [("spp", .int 16)])])) =
      some (ofDict [("type", .str "scene")], ofDict [("spp", .int 16)]) ∧
    (renderSceneModel ⟨"renders", Option.none, []⟩
        (ofDict [("type", .str "scene")]) (ofDict [("spp", .int 16)])
        "render.png" "t0.pkl" "python" "render_subprocess.py" true).1.tempFiles =
      [] ++ ["t0.pkl"] :=
  ⟨(render_scene_serialization ⟨"renders", Option.none, []⟩
      (ofDict [("type", .str "scene")]) (ofDict [("spp", .int 16)])
      "render.png" "t0.pkl" "python" "render_subprocess.py" true rfl).2.2.2,
   (render_scene_serialization ⟨"renders", Option.none, []⟩
      (ofDict [("type", .str "scene")]) (ofDict [("spp", .int 16)])
      "render.png" "t0.pkl" "python" "render_subprocess.py" true rfl).2.2.1⟩
